import Mathlib

/-!
Verification of the WhatsgateClient Go library (`whatsgate.go` and its
near-duplicate variant file) against its design specification.

The repository is a thin HTTP client with three operations: `SendMessage`,
`SendPDF` (called `SendDocument` in the spec) and `Check` (called
`CheckNumber` in the spec).  Each operation marshals a request struct to
JSON, POSTs it through an `http.Client` whose transport injects the
`X-Api-Key` and `Content-type` headers, and unmarshals the response.

Shallow-embedding conventions:
* JSON texts are modelled by the `Json` AST below rather than byte strings.
  A response body, as delivered by `io.ReadAll(resp.Body)`, is modelled as
  `Except GoError (Option Json)`: `.error e` is a read failure, `.ok none`
  is a byte sequence that is not well-formed JSON text, `.ok (some j)` is a
  byte sequence whose JSON parse is `j`.  JSON numbers are modelled as
  integers (the protocol's numeric fields are Go `int`s).
* A Go `error` return is modelled as `Option GoError` with `GoError = String`
  (`none` = nil error), so each operation returns the same pair of values
  as the Go function, including the zero value accompanying a non-nil error.
* The network (`http.DefaultTransport` in `NewClient`) is an oracle
  `Network := HttpRequest → Except GoError HttpResponse` supplied as a
  parameter: `.error` models a transport-level failure of `(*http.Client).Do`.
* `json.Marshal` on the request structs of this package is total (the
  structs contain only strings, bools, ints and nested such structs, which
  never fail to marshal), and `http.NewRequest` with method `"POST"` cannot
  fail here, so the corresponding dead `if err != nil` branches of the Go
  code have no counterpart in the embedding.
* `slog.Error` diagnostics and the variant's `fmt.Println` debug print have
  no observable effect on the returned values and are not modelled.
-/

/-- A JSON value.  Arrays do not occur in this protocol's payloads and are
omitted; `obj` keeps the field list ordered as Go's `encoding/json` emits it
(struct field order). -/
inductive Json where
  | null : Json
  | bool : Bool → Json
  | num : Int → Json
  | str : String → Json
  | obj : List (String × Json) → Json

/-- Go `error` values, modelled by their message text. -/
abbrev GoError := String

/-- Network oracles and HTTP messages. -/
structure HttpRequest where
  method : String
  url : String
  headers : List (String × String)
  close : Bool
  body : Json

/-- An HTTP response as the client observes it: numeric status code,
`resp.Status` text (for example "404 Not Found"), and the body read
(see the module comment for the meaning of `Except GoError (Option Json)`). -/
structure HttpResponse where
  status : Nat
  statusText : String
  body : Except GoError (Option Json)

/-- The underlying round tripper (`http.DefaultTransport` plus everything
below it), as an oracle. -/
abbrev Network := HttpRequest → Except GoError HttpResponse

/-- Go type `transport` (whatsgate.go lines 13-16): a round tripper holding
the API key it injects. -/
structure Transport where
  rt : Network
  xApiKey : String

/-- Header injection performed by `transport.RoundTrip` (lines 18-22):
`req.Header.Add("X-Api-Key", ...)` then `req.Header.Add("Content-type", ...)`;
`Header.Add` appends. -/
def transportHeaders (xApiKey : String) (req : HttpRequest) : HttpRequest :=
  { req with headers := req.headers ++ [("X-Api-Key", xApiKey), ("Content-type", "application/json")] }

/-- Go `transport.RoundTrip`: add the two headers, then delegate to the
wrapped round tripper.  `(*http.Client).Do` is this round trip. -/
def Transport.RoundTrip (t : Transport) (req : HttpRequest) : Except GoError HttpResponse :=
  t.rt (transportHeaders t.xApiKey req)

/-- Go type `Client` (lines 24-28).  The `httpClient *http.Client` field is
modelled by the transport it was constructed with. -/
structure Client where
  httpClient : Transport
  url : String
  WhatsappID : String

/-- Go `NewClient` (lines 30-34).  The `net` parameter stands for
`http.DefaultTransport`. -/
def NewClient (apiKey whatsappID : String) (net : Network) : Client :=
  { httpClient := { rt := net, xApiKey := apiKey },
    url := "https://whatsgate.ru/api/v1",
    WhatsappID := whatsappID }

/-- Inner anonymous struct of Go `MessageResponse` (lines 37-50).  `Type'`
models the Go field `Type` (a Lean keyword). -/
structure MessageResult where
  Id : String
  Id1 : String
  Ack : Int
  HasMedia : Bool
  MediaKey : String
  Body : String
  Type' : String
  Timestamp : Int
  From : String
  FromName : String
  To : String
  IsForwarded : Bool

/-- Go type `MessageResponse` (lines 36-51). -/
structure MessageResponse where
  Result : MessageResult

/-- The Go zero value `MessageResult{}`. -/
def zeroMessageResult : MessageResult :=
  { Id := "", Id1 := "", Ack := 0, HasMedia := false, MediaKey := "", Body := "",
    Type' := "", Timestamp := 0, From := "", FromName := "", To := "", IsForwarded := false }

/-- The Go zero value `MessageResponse{}` returned on every error path. -/
def zeroMessageResponse : MessageResponse :=
  { Result := zeroMessageResult }

/-- Go type `Recipient` (lines 70-72). -/
structure Recipient where
  Number : String

/-- Go type `Message` (lines 74-77).  `Type'` models the Go field `Type`. -/
structure Message where
  Type' : String
  Body : String

/-- Go type `MessageRequest` (lines 53-58). -/
structure MessageRequest where
  WhatsappID : String
  Async : Bool
  Recipient : Recipient
  Message : Message

/-- Go type `Media` (lines 85-89). -/
structure Media where
  Mimetype : String
  Data : String
  Filename : String

/-- Go type `MessagePDF` (lines 79-83). -/
structure MessagePDF where
  Type' : String
  Body : String
  Media : Media

/-- Go type `MessagePDFRequest` (lines 91-96). -/
structure MessagePDFRequest where
  WhatsappID : String
  Async : Bool
  Recipient : Recipient
  Message : MessagePDF

/-- Go type `CheckRequest` (lines 60-63). -/
structure CheckRequest where
  WhatsappID : String
  Number : String

/-- Go type `CheckResponse` (lines 65-68). -/
structure CheckResponse where
  Result : String
  Data : Bool

/-- Marshalling (`json.Marshal`), following the struct tags and Go's emitted
field order. -/
def Recipient.toJson (r : Recipient) : Json :=
  Json.obj [("number", Json.str r.Number)]

/-- Marshalling of `Message` with tags `type`, `body`. -/
def Message.toJson (m : Message) : Json :=
  Json.obj [("type", Json.str m.Type'), ("body", Json.str m.Body)]

/-- Marshalling of `MessageRequest` with tags `WhatsappID`, `async`,
`recipient`, `message`. -/
def MessageRequest.toJson (m : MessageRequest) : Json :=
  Json.obj [("WhatsappID", Json.str m.WhatsappID),
            ("async", Json.bool m.Async),
            ("recipient", m.Recipient.toJson),
            ("message", m.Message.toJson)]

/-- Marshalling of `Media` with tags `mimetype`, `data`, `filename`. -/
def Media.toJson (m : Media) : Json :=
  Json.obj [("mimetype", Json.str m.Mimetype),
            ("data", Json.str m.Data),
            ("filename", Json.str m.Filename)]

/-- Marshalling of `MessagePDF` with tags `type`, `body`, `media`. -/
def MessagePDF.toJson (m : MessagePDF) : Json :=
  Json.obj [("type", Json.str m.Type'),
            ("body", Json.str m.Body),
            ("media", m.Media.toJson)]

/-- Marshalling of `MessagePDFRequest` with tags `WhatsappID`, `async`,
`recipient`, `message`. -/
def MessagePDFRequest.toJson (m : MessagePDFRequest) : Json :=
  Json.obj [("WhatsappID", Json.str m.WhatsappID),
            ("async", Json.bool m.Async),
            ("recipient", m.Recipient.toJson),
            ("message", m.Message.toJson)]

/-- Marshalling of `CheckRequest` with tags `WhatsappID`, `number`. -/
def CheckRequest.toJson (c : CheckRequest) : Json :=
  Json.obj [("WhatsappID", Json.str c.WhatsappID), ("number", Json.str c.Number)]

/-- Object field lookup with Go's duplicate-key semantics: the decoder
processes keys in order and a later duplicate overwrites an earlier one,
so the last occurrence wins. -/
def jGet : List (String × Json) → String → Option Json
  | [], _ => none
  | (k, v) :: rest, key =>
    match jGet rest key with
    | some w => some w
    | none => if k = key then some v else none

/-- Unmarshalling a JSON value into a Go `string` field: a missing key or a
JSON null leaves the zero value, a JSON string is copied verbatim, and any
other value is a type error. -/
def goDecodeString (fields : List (String × Json)) (key : String) : Except GoError String :=
  match jGet fields key with
  | none => .ok ""
  | some Json.null => .ok ""
  | some (Json.str s) => .ok s
  | some _ => .error ("json: cannot unmarshal value into Go struct field of type string: " ++ key)

/-- Unmarshalling a JSON value into a Go `int` field. -/
def goDecodeInt (fields : List (String × Json)) (key : String) : Except GoError Int :=
  match jGet fields key with
  | none => .ok 0
  | some Json.null => .ok 0
  | some (Json.num n) => .ok n
  | some _ => .error ("json: cannot unmarshal value into Go struct field of type int: " ++ key)

/-- Unmarshalling a JSON value into a Go `bool` field. -/
def goDecodeBool (fields : List (String × Json)) (key : String) : Except GoError Bool :=
  match jGet fields key with
  | none => .ok false
  | some Json.null => .ok false
  | some (Json.bool b) => .ok b
  | some _ => .error ("json: cannot unmarshal value into Go struct field of type bool: " ++ key)

/-- Unmarshalling the inner `result` object of `MessageResponse`,
field by field along the struct tags; unknown keys are ignored. -/
def decodeMessageResult (fields : List (String × Json)) : Except GoError MessageResult := do
  let id0 ← goDecodeString fields "_id"
  let id1 ← goDecodeString fields "id"
  let ack ← goDecodeInt fields "ack"
  let hasMedia ← goDecodeBool fields "hasMedia"
  let mediaKey ← goDecodeString fields "mediaKey"
  let body ← goDecodeString fields "body"
  let ty ← goDecodeString fields "type"
  let ts ← goDecodeInt fields "timestamp"
  let from0 ← goDecodeString fields "from"
  let fromName ← goDecodeString fields "from_name"
  let to0 ← goDecodeString fields "to"
  let fwd ← goDecodeBool fields "isForwarded"
  .ok { Id := id0, Id1 := id1, Ack := ack, HasMedia := hasMedia, MediaKey := mediaKey,
        Body := body, Type' := ty, Timestamp := ts, From := from0, FromName := fromName,
        To := to0, IsForwarded := fwd }

/-- Go `json.Unmarshal` of a parsed JSON value into `MessageResponse`:
a JSON null or a missing `result` key leaves the zero value, an object is
decoded field by field, anything else is a type error. -/
def unmarshalMessageResponse (j : Json) : Except GoError MessageResponse :=
  match j with
  | Json.null => .ok zeroMessageResponse
  | Json.obj fields =>
    match jGet fields "result" with
    | none => .ok zeroMessageResponse
    | some Json.null => .ok zeroMessageResponse
    | some (Json.obj rfields) => do
        let r ← decodeMessageResult rfields
        .ok { Result := r }
    | some _ => .error "json: cannot unmarshal value into Go struct field result"
  | _ => .error "json: cannot unmarshal value into Go value of type whatsgate.MessageResponse"

/-- Go `json.Unmarshal` applied to the raw body bytes: bytes that are not
well-formed JSON text (`none`) are a syntax error, otherwise the parsed
value is decoded. -/
def unmarshalMessageBody (b : Option Json) : Except GoError MessageResponse :=
  match b with
  | none => .error "invalid character in JSON input"
  | some j => unmarshalMessageResponse j

/-- Go `json.Unmarshal`/`Decode` of a parsed JSON value into `CheckResponse`. -/
def unmarshalCheckResponse (j : Json) : Except GoError CheckResponse :=
  match j with
  | Json.null => .ok { Result := "", Data := false }
  | Json.obj fields => do
    let r ← goDecodeString fields "result"
    let d ← goDecodeBool fields "data"
    .ok { Result := r, Data := d }
  | _ => .error "json: cannot unmarshal value into Go value of type whatsgate.CheckResponse"

/-- Decoding of the `/check` response body as `json.NewDecoder(req.Body).Decode`
performs it: a read failure or malformed JSON text surfaces as the decode error. -/
def unmarshalCheckBody (b : Option Json) : Except GoError CheckResponse :=
  match b with
  | none => .error "invalid character in JSON input"
  | some j => unmarshalCheckResponse j

/-- The base64 alphabet of `base64.StdEncoding`. -/
def b64Alphabet : List Char :=
  "ABCDEFGHIJKLMNOPQRSTUVWXYZabcdefghijklmnopqrstuvwxyz0123456789+/".toList

/-- Character of the standard base64 alphabet at a 6-bit index. -/
def b64Char (n : Nat) : Char := b64Alphabet.getD n 'A'

/-- Go `base64.StdEncoding.EncodeToString`: 3 input bytes become 4 alphabet
characters; a 1- or 2-byte tail is padded with `=`.  Bytes are naturals taken
mod 256. -/
def base64EncodeStd : List Nat → String
  | [] => ""
  | [a] =>
    let a := a % 256
    String.mk [b64Char (a / 4), b64Char (a % 4 * 16), '=', '=']
  | [a, b] =>
    let a := a % 256
    let b := b % 256
    String.mk [b64Char (a / 4), b64Char (a % 4 * 16 + b / 16), b64Char (b % 16 * 4), '=']
  | a :: b :: c :: rest =>
    let a' := a % 256
    let b' := b % 256
    let c' := c % 256
    String.mk [b64Char (a' / 4), b64Char (a' % 4 * 16 + b' / 16),
               b64Char (b' % 16 * 4 + c' / 64), b64Char (c' % 64)] ++ base64EncodeStd rest

/-- The request `SendMessage` builds (whatsgate.go lines 99-114): marshalled
`MessageRequest`, `http.NewRequest("POST", c.url+"/send", ...)`, `r.Close = true`. -/
def sendMessageRequest (c : Client) (recipientPhone text : String) : HttpRequest :=
  { method := "POST", url := c.url ++ "/send", headers := [], close := true,
    body := MessageRequest.toJson
      { WhatsappID := c.WhatsappID, Async := false,
        Recipient := { Number := recipientPhone },
        Message := { Type' := "text", Body := text } } }

/-- Response handling of `SendMessage` (lines 116-142): transport failure,
body-read failure, the non-200 check with the fixed Russian error message
("некорректный номер WhatsApp"), then unmarshalling. -/
def sendMessageHandle (result : Except GoError HttpResponse) : MessageResponse × Option GoError :=
  match result with
  | .error e => (zeroMessageResponse, some e)
  | .ok resp =>
    match resp.body with
    | .error e => (zeroMessageResponse, some e)
    | .ok respBody =>
      if resp.status ≠ 200 then (zeroMessageResponse, some "некорректный номер WhatsApp")
      else
        match unmarshalMessageBody respBody with
        | .error e => (zeroMessageResponse, some e)
        | .ok message => (message, none)

/-- Go `(*Client).SendMessage` (whatsgate.go lines 98-143). -/
def SendMessage (c : Client) (recipientPhone text : String) : MessageResponse × Option GoError :=
  sendMessageHandle (c.httpClient.RoundTrip (sendMessageRequest c recipientPhone text))

/-- The request `SendPDF` builds (lines 151-170) from the bytes read out of
the `io.Reader`. -/
def sendPDFRequest (c : Client) (recipientPhone text filename : String) (b : List Nat) : HttpRequest :=
  { method := "POST", url := c.url ++ "/send", headers := [], close := true,
    body := MessagePDFRequest.toJson
      { WhatsappID := c.WhatsappID, Async := false,
        Recipient := { Number := recipientPhone },
        Message := { Type' := "doc", Body := text,
                     Media := { Mimetype := "application/pdf",
                                Data := base64EncodeStd b,
                                Filename := filename } } } }

/-- Response handling of `SendPDF` (lines 172-198): identical to
`sendMessageHandle` except that the non-200 error is `errors.New(req.Status)`. -/
def sendPDFHandle (result : Except GoError HttpResponse) : MessageResponse × Option GoError :=
  match result with
  | .error e => (zeroMessageResponse, some e)
  | .ok resp =>
    match resp.body with
    | .error e => (zeroMessageResponse, some e)
    | .ok respBody =>
      if resp.status ≠ 200 then (zeroMessageResponse, some resp.statusText)
      else
        match unmarshalMessageBody respBody with
        | .error e => (zeroMessageResponse, some e)
        | .ok message => (message, none)

/-- Go `(*Client).SendPDF` (whatsgate.go lines 145-199).  The `pdf` argument
models the `io.Reader`: the outcome of `io.ReadAll(pdf)` at line 146. -/
def SendPDF (c : Client) (recipientPhone text filename : String)
    (pdf : Except GoError (List Nat)) : MessageResponse × Option GoError :=
  match pdf with
  | .error e => (zeroMessageResponse, some e)
  | .ok b => sendPDFHandle (c.httpClient.RoundTrip (sendPDFRequest c recipientPhone text filename b))

/-- The request `Check` builds (lines 202-214). -/
def checkRequest (c : Client) (phone : String) : HttpRequest :=
  { method := "POST", url := c.url ++ "/check", headers := [], close := true,
    body := CheckRequest.toJson { WhatsappID := c.WhatsappID, Number := phone } }

/-- Response handling of `Check` (lines 216-236): unlike the send paths, the
status is checked before the body is read, and the decode step reads the body. -/
def checkHandle (result : Except GoError HttpResponse) : Bool × Option GoError :=
  match result with
  | .error e => (false, some e)
  | .ok resp =>
    if resp.status ≠ 200 then (false, some resp.statusText)
    else
      match resp.body with
      | .error e => (false, some e)
      | .ok respBody =>
        match unmarshalCheckBody respBody with
        | .error e => (false, some e)
        | .ok response => (response.Data, none)

/-- Go `(*Client).Check` (whatsgate.go lines 201-237). -/
def Check (c : Client) (phone : String) : Bool × Option GoError :=
  checkHandle (c.httpClient.RoundTrip (checkRequest c phone))

/-- The request built by the variant `SendMessage` of the second source file
(part_000 lines 70-85); textually the same construction as `sendMessageRequest`. -/
def sendMessageRequestV2 (c : Client) (recipientPhone text : String) : HttpRequest :=
  { method := "POST", url := c.url ++ "/send", headers := [], close := true,
    body := MessageRequest.toJson
      { WhatsappID := c.WhatsappID, Async := false,
        Recipient := { Number := recipientPhone },
        Message := { Type' := "text", Body := text } } }

/-- Response handling of the variant `SendMessage` (part_000 lines 87-115):
the non-200 error is `errors.New(req.Status)` and the raw body is printed
with `fmt.Println` before unmarshalling (no effect on the returned values). -/
def sendMessageHandleV2 (result : Except GoError HttpResponse) : MessageResponse × Option GoError :=
  match result with
  | .error e => (zeroMessageResponse, some e)
  | .ok resp =>
    match resp.body with
    | .error e => (zeroMessageResponse, some e)
    | .ok respBody =>
      if resp.status ≠ 200 then (zeroMessageResponse, some resp.statusText)
      else
        match unmarshalMessageBody respBody with
        | .error e => (zeroMessageResponse, some e)
        | .ok message => (message, none)

/-- The variant `(*Client).SendMessage` of the second source file
(part_000 lines 69-116). -/
def SendMessageV2 (c : Client) (recipientPhone text : String) : MessageResponse × Option GoError :=
  sendMessageHandleV2 (c.httpClient.RoundTrip (sendMessageRequestV2 c recipientPhone text))

/-- The request as it leaves the client, after `transport.RoundTrip` injected
the headers: what the gateway actually receives from `SendMessage`. -/
def sendMessageWire (c : Client) (recipientPhone text : String) : HttpRequest :=
  transportHeaders c.httpClient.xApiKey (sendMessageRequest c recipientPhone text)

/-- The on-the-wire request of `SendPDF`. -/
def sendPDFWire (c : Client) (recipientPhone text filename : String) (b : List Nat) : HttpRequest :=
  transportHeaders c.httpClient.xApiKey (sendPDFRequest c recipientPhone text filename b)

/-- The on-the-wire request of `Check`. -/
def checkWire (c : Client) (phone : String) : HttpRequest :=
  transportHeaders c.httpClient.xApiKey (checkRequest c phone)

/-- State-passing form of `SendMessage`: the Go method body contains no
assignment to any field of the receiver `c`, so the receiver the caller holds
after the call is the one it held before. -/
def SendMessageSt (c : Client) (recipientPhone text : String) :
    (MessageResponse × Option GoError) × Client :=
  (SendMessage c recipientPhone text, c)

/-- State-passing form of `SendPDF` (no assignment to the receiver). -/
def SendPDFSt (c : Client) (recipientPhone text filename : String)
    (pdf : Except GoError (List Nat)) : (MessageResponse × Option GoError) × Client :=
  (SendPDF c recipientPhone text filename pdf, c)

/-- State-passing form of `Check` (no assignment to the receiver). -/
def CheckSt (c : Client) (phone : String) : (Bool × Option GoError) × Client :=
  (Check c phone, c)

/-! Connection lemmas: each operation is literally one round trip on its
wire request; these equations are definitional. -/

theorem SendMessage_eq_wire (c : Client) (p t : String) :
    SendMessage c p t = sendMessageHandle (c.httpClient.rt (sendMessageWire c p t)) := rfl

theorem SendPDF_eq_wire (c : Client) (p t fn : String) (b : List Nat) :
    SendPDF c p t fn (.ok b) = sendPDFHandle (c.httpClient.rt (sendPDFWire c p t fn b)) := rfl

theorem Check_eq_wire (c : Client) (phone : String) :
    Check c phone = checkHandle (c.httpClient.rt (checkWire c phone)) := rfl

theorem SendMessageV2_eq_wire (c : Client) (p t : String) :
    SendMessageV2 c p t = sendMessageHandleV2 (c.httpClient.rt (sendMessageWire c p t)) := rfl

/-- On a non-200 response, `SendMessage`'s handler yields the zero response
and a non-nil error, whatever the body read produced. -/
theorem sendMessageHandle_non200 (resp : HttpResponse) (h : resp.status ≠ 200) :
    (sendMessageHandle (.ok resp)).1 = zeroMessageResponse ∧
    (sendMessageHandle (.ok resp)).2.isSome := by
  cases hb : resp.body with
  | error e => simp [sendMessageHandle, hb]
  | ok respBody => simp [sendMessageHandle, hb, h]

/-- On a non-200 response, `SendPDF`'s handler yields the zero response and a
non-nil error. -/
theorem sendPDFHandle_non200 (resp : HttpResponse) (h : resp.status ≠ 200) :
    (sendPDFHandle (.ok resp)).1 = zeroMessageResponse ∧
    (sendPDFHandle (.ok resp)).2.isSome := by
  cases hb : resp.body with
  | error e => simp [sendPDFHandle, hb]
  | ok respBody => simp [sendPDFHandle, hb, h]

/-- C1: for every gateway response with an HTTP status other than 200, both
`SendMessage` and `SendPDF` return a non-nil error together with the zero
`MessageResponse`.  No retry happens: by `SendMessage_eq_wire` and
`SendPDF_eq_wire`, each operation consults the network exactly once, on its
wire request, and this theorem covers every outcome of that single exchange
with a non-200 status. -/
theorem C1_non200_is_error (c : Client) (p t fn : String) (b : List Nat) (resp : HttpResponse)
    (hs : c.httpClient.rt (sendMessageWire c p t) = .ok resp)
    (hp : c.httpClient.rt (sendPDFWire c p t fn b) = .ok resp)
    (hst : resp.status ≠ 200) :
    ((SendMessage c p t).1 = zeroMessageResponse ∧ (SendMessage c p t).2.isSome) ∧
    ((SendPDF c p t fn (.ok b)).1 = zeroMessageResponse ∧ (SendPDF c p t fn (.ok b)).2.isSome) := by
  rw [SendMessage_eq_wire, SendPDF_eq_wire, hs, hp]
  exact ⟨sendMessageHandle_non200 resp hst, sendPDFHandle_non200 resp hst⟩

/-- Stub gateway answering 404 to everything, for the C1 witness. -/
def stubNet404 : Network := fun _ =>
  .ok { status := 404, statusText := "404 Not Found", body := .ok none }

/-- Client built against the 404 stub. -/
def client404 : Client := NewClient "k1" "wa1" stubNet404

/-- Witness for C1 at a concrete 404 response. -/
theorem C1_non200_is_error_witness :
    ((SendMessage client404 "79990001122" "hi").1 = zeroMessageResponse ∧
      (SendMessage client404 "79990001122" "hi").2.isSome) ∧
    ((SendPDF client404 "79990001122" "hi" "a.pdf" (.ok [1, 2, 3])).1 = zeroMessageResponse ∧
      (SendPDF client404 "79990001122" "hi" "a.pdf" (.ok [1, 2, 3])).2.isSome) :=
  C1_non200_is_error client404 "79990001122" "hi" "a.pdf" [1, 2, 3]
    { status := 404, statusText := "404 Not Found", body := .ok none }
    rfl rfl (by decide)

/-- C2: a 200 response whose body is well-formed JSON yields the unmarshalled
`MessageResponse` (fields copied verbatim by `unmarshalMessageResponse`,
the embedding of `json.Unmarshal` for this struct) and a nil error; the
concrete scenario of the spec is the witness below. -/
theorem C2_ok_parsed (c : Client) (p t : String) (resp : HttpResponse) (j : Json)
    (m : MessageResponse)
    (hrt : c.httpClient.rt (sendMessageWire c p t) = .ok resp)
    (hst : resp.status = 200)
    (hb : resp.body = .ok (some j))
    (hj : unmarshalMessageResponse j = .ok m) :
    SendMessage c p t = (m, none) := by
  rw [SendMessage_eq_wire, hrt]
  simp [sendMessageHandle, hb, hst, unmarshalMessageBody, hj]

/-- Stub gateway answering the spec's example body to everything. -/
def stubNetC2 : Network := fun _ =>
  .ok { status := 200, statusText := "200 OK",
        body := .ok (some (Json.obj
          [("result", Json.obj [("_id", Json.str "abc"), ("ack", Json.num 1)])])) }

/-- Client of the spec's example scenario. -/
def clientC2 : Client := NewClient "k1" "wa1" stubNetC2

/-- Witness for C2: the spec's example scenario, evaluated end to end. -/
theorem C2_ok_parsed_witness :
    SendMessage clientC2 "79990001122" "hello" =
      ({ Result := { zeroMessageResult with Id := "abc", Ack := 1 } }, none) :=
  C2_ok_parsed clientC2 "79990001122" "hello"
    { status := 200, statusText := "200 OK",
      body := .ok (some (Json.obj
        [("result", Json.obj [("_id", Json.str "abc"), ("ack", Json.num 1)])])) }
    (Json.obj [("result", Json.obj [("_id", Json.str "abc"), ("ack", Json.num 1)])])
    { Result := { zeroMessageResult with Id := "abc", Ack := 1 } }
    rfl rfl rfl rfl

/-- C3: `Check` returns the `data` boolean of a 200 response verbatim with a
nil error, and on any non-200 status it returns a non-nil error (the status
text), not a bare `false` answer. -/
theorem C3_check_contract (c : Client) (phone : String) (resp : HttpResponse)
    (hrt : c.httpClient.rt (checkWire c phone) = .ok resp) :
    (∀ j cr, resp.status = 200 → resp.body = .ok (some j) →
      unmarshalCheckResponse j = .ok cr → Check c phone = (cr.Data, none)) ∧
    (resp.status ≠ 200 → Check c phone = (false, some resp.statusText)) := by
  constructor
  · intro j cr hst hb hj
    rw [Check_eq_wire, hrt]
    simp [checkHandle, hst, hb, unmarshalCheckBody, hj]
  · intro hst
    rw [Check_eq_wire, hrt]
    simp [checkHandle, hst]

/-- Stub gateway answering a 200 check response with `data: true`. -/
def stubNetC3 : Network := fun _ =>
  .ok { status := 200, statusText := "200 OK",
        body := .ok (some (Json.obj [("result", Json.str "ok"), ("data", Json.bool true)])) }

/-- Client built against the check stub. -/
def clientC3 : Client := NewClient "k1" "wa1" stubNetC3

/-- Witness for C3 at a concrete 200 response carrying `data: true`. -/
theorem C3_check_contract_witness :
    Check clientC3 "79990001122" = (true, none) :=
  (C3_check_contract clientC3 "79990001122"
      { status := 200, statusText := "200 OK",
        body := .ok (some (Json.obj [("result", Json.str "ok"), ("data", Json.bool true)])) }
      rfl).1
    (Json.obj [("result", Json.str "ok"), ("data", Json.bool true)])
    { Result := "ok", Data := true } rfl rfl rfl

/-- C4: every outbound request of a client built with `NewClient` carries the
headers `X-Api-Key: apiKey` and `Content-type: application/json`, on all three
endpoints; the first conjunct of each group records that the wire request named
here is exactly the one the operation hands to the network. -/
theorem C4_headers_injected (apiKey senderId p t fn phone : String) (b : List Nat)
    (net : Network) :
    (SendMessage (NewClient apiKey senderId net) p t =
        sendMessageHandle (net (sendMessageWire (NewClient apiKey senderId net) p t)) ∧
      ("X-Api-Key", apiKey) ∈ (sendMessageWire (NewClient apiKey senderId net) p t).headers ∧
      ("Content-type", "application/json") ∈
        (sendMessageWire (NewClient apiKey senderId net) p t).headers) ∧
    (SendPDF (NewClient apiKey senderId net) p t fn (.ok b) =
        sendPDFHandle (net (sendPDFWire (NewClient apiKey senderId net) p t fn b)) ∧
      ("X-Api-Key", apiKey) ∈ (sendPDFWire (NewClient apiKey senderId net) p t fn b).headers ∧
      ("Content-type", "application/json") ∈
        (sendPDFWire (NewClient apiKey senderId net) p t fn b).headers) ∧
    (Check (NewClient apiKey senderId net) phone =
        checkHandle (net (checkWire (NewClient apiKey senderId net) phone)) ∧
      ("X-Api-Key", apiKey) ∈ (checkWire (NewClient apiKey senderId net) phone).headers ∧
      ("Content-type", "application/json") ∈
        (checkWire (NewClient apiKey senderId net) phone).headers) := by
  refine ⟨⟨rfl, ?_, ?_⟩, ⟨rfl, ?_, ?_⟩, ⟨rfl, ?_, ?_⟩⟩ <;>
    simp [sendMessageWire, sendPDFWire, checkWire, transportHeaders,
      sendMessageRequest, sendPDFRequest, checkRequest, NewClient]

/-- C5: the document send builds a "doc" message whose media holds the
standard base64 encoding of exactly the supplied bytes and the fixed MIME type
"application/pdf", and POSTs it to the `/send` endpoint; the last conjunct
records that this wire request is the one `SendPDF` issues (exactly once). -/
theorem C5_pdf_payload (c : Client) (p t fn : String) (b : List Nat) :
    (sendPDFWire c p t fn b).method = "POST" ∧
    (sendPDFWire c p t fn b).url = c.url ++ "/send" ∧
    (sendPDFWire c p t fn b).body =
      Json.obj [("WhatsappID", Json.str c.WhatsappID),
                ("async", Json.bool false),
                ("recipient", Json.obj [("number", Json.str p)]),
                ("message", Json.obj
                  [("type", Json.str "doc"),
                   ("body", Json.str t),
                   ("media", Json.obj
                     [("mimetype", Json.str "application/pdf"),
                      ("data", Json.str (base64EncodeStd b)),
                      ("filename", Json.str fn)])])] ∧
    SendPDF c p t fn (.ok b) = sendPDFHandle (c.httpClient.rt (sendPDFWire c p t fn b)) :=
  ⟨rfl, rfl, rfl, rfl⟩

/-- C6: `SendMessage` issues exactly one POST to `{baseURL}/send`, whose JSON
body carries `type: "text"`, the supplied text as `body`, the supplied phone
as `recipient.number`, the constructor's sender ID as `WhatsappID`, and
`async: false`; the last conjunct records that the whole outcome is a function
of the network's answer to this single wire request. -/
theorem C6_send_request_shape (apiKey senderId p t : String) (net : Network) :
    (sendMessageWire (NewClient apiKey senderId net) p t).method = "POST" ∧
    (sendMessageWire (NewClient apiKey senderId net) p t).url =
      "https://whatsgate.ru/api/v1" ++ "/send" ∧
    (sendMessageWire (NewClient apiKey senderId net) p t).body =
      Json.obj [("WhatsappID", Json.str senderId),
                ("async", Json.bool false),
                ("recipient", Json.obj [("number", Json.str p)]),
                ("message", Json.obj [("type", Json.str "text"), ("body", Json.str t)])] ∧
    SendMessage (NewClient apiKey senderId net) p t =
      sendMessageHandle (net (sendMessageWire (NewClient apiKey senderId net) p t)) :=
  ⟨rfl, rfl, rfl, rfl⟩

/-- C7: a 200 response whose body does not unmarshal as `MessageResponse`
(unparseable bytes or a type mismatch) makes both send operations return the
parse error together with the zero `MessageResponse`. -/
theorem C7_parse_error (c : Client) (p t fn : String) (b : List Nat) (resp : HttpResponse)
    (bb : Option Json) (e : GoError)
    (hs : c.httpClient.rt (sendMessageWire c p t) = .ok resp)
    (hp : c.httpClient.rt (sendPDFWire c p t fn b) = .ok resp)
    (hst : resp.status = 200)
    (hb : resp.body = .ok bb)
    (he : unmarshalMessageBody bb = .error e) :
    SendMessage c p t = (zeroMessageResponse, some e) ∧
    SendPDF c p t fn (.ok b) = (zeroMessageResponse, some e) := by
  rw [SendMessage_eq_wire, SendPDF_eq_wire, hs, hp]
  constructor
  · simp [sendMessageHandle, hb, hst, he]
  · simp [sendPDFHandle, hb, hst, he]

/-- Stub gateway answering 200 with a body that is not well-formed JSON. -/
def stubNetBadBody : Network := fun _ =>
  .ok { status := 200, statusText := "200 OK", body := .ok none }

/-- Client built against the malformed-body stub. -/
def clientBadBody : Client := NewClient "k1" "wa1" stubNetBadBody

/-- Witness for C7 at a concrete 200 response with an unparseable body. -/
theorem C7_parse_error_witness :
    SendMessage clientBadBody "79990001122" "hi" =
      (zeroMessageResponse, some "invalid character in JSON input") ∧
    SendPDF clientBadBody "79990001122" "hi" "a.pdf" (.ok [1, 2, 3]) =
      (zeroMessageResponse, some "invalid character in JSON input") :=
  C7_parse_error clientBadBody "79990001122" "hi" "a.pdf" [1, 2, 3]
    { status := 200, statusText := "200 OK", body := .ok none }
    none "invalid character in JSON input" rfl rfl rfl rfl rfl

/-- The two response handlers agree on the returned value and on whether the
error is nil, for every possible round-trip outcome; they differ only in the
error text of the non-200 branch. -/
theorem sendMessageHandle_agree (r : Except GoError HttpResponse) :
    (sendMessageHandleV2 r).1 = (sendMessageHandle r).1 ∧
    ((sendMessageHandleV2 r).2 = none ↔ (sendMessageHandle r).2 = none) := by
  cases r with
  | error e => simp [sendMessageHandle, sendMessageHandleV2]
  | ok resp =>
    cases hb : resp.body with
    | error e => simp [sendMessageHandle, sendMessageHandleV2, hb]
    | ok respBody =>
      by_cases hst : resp.status = 200
      · cases hj : unmarshalMessageBody respBody with
        | error e => simp [sendMessageHandle, sendMessageHandleV2, hb, hst, hj]
        | ok m => simp [sendMessageHandle, sendMessageHandleV2, hb, hst, hj]
      · simp [sendMessageHandle, sendMessageHandleV2, hb, hst]

/-- C8: the two source variants of `SendMessage` are behaviourally equivalent:
they build the identical POST request, return the same `MessageResponse`, and
one returns a nil error exactly when the other does; they differ only in the
non-200 error text and the variant's debug print. -/
theorem C8_variants_equivalent (c : Client) (p t : String) :
    sendMessageRequestV2 c p t = sendMessageRequest c p t ∧
    (SendMessageV2 c p t).1 = (SendMessage c p t).1 ∧
    ((SendMessageV2 c p t).2 = none ↔ (SendMessage c p t).2 = none) := by
  have h := sendMessageHandle_agree (c.httpClient.RoundTrip (sendMessageRequest c p t))
  exact ⟨rfl, h.1, h.2⟩

/-- C9: no operation modifies the client's configuration: in the state-passing
forms, the base URL, API key and sender ID of the client after any call are
those before it, on success and on failure alike. -/
theorem C9_config_unchanged (c : Client) (p t fn phone : String)
    (pdf : Except GoError (List Nat)) :
    ((SendMessageSt c p t).2.url = c.url ∧
      (SendMessageSt c p t).2.httpClient.xApiKey = c.httpClient.xApiKey ∧
      (SendMessageSt c p t).2.WhatsappID = c.WhatsappID) ∧
    ((SendPDFSt c p t fn pdf).2.url = c.url ∧
      (SendPDFSt c p t fn pdf).2.httpClient.xApiKey = c.httpClient.xApiKey ∧
      (SendPDFSt c p t fn pdf).2.WhatsappID = c.WhatsappID) ∧
    ((CheckSt c phone).2.url = c.url ∧
      (CheckSt c phone).2.httpClient.xApiKey = c.httpClient.xApiKey ∧
      (CheckSt c phone).2.WhatsappID = c.WhatsappID) :=
  ⟨⟨rfl, rfl, rfl⟩, ⟨rfl, rfl, rfl⟩, ⟨rfl, rfl, rfl⟩⟩

/-- Every outcome of `SendMessage`'s handler with a non-nil error carries the
zero response. -/
theorem sendMessageHandle_zero_on_error (r : Except GoError HttpResponse)
    (h : (sendMessageHandle r).2 ≠ none) :
    (sendMessageHandle r).1 = zeroMessageResponse := by
  cases r with
  | error e => rfl
  | ok resp =>
    cases hb : resp.body with
    | error e => simp [sendMessageHandle, hb]
    | ok respBody =>
      by_cases hst : resp.status = 200
      · cases hj : unmarshalMessageBody respBody with
        | error e => simp [sendMessageHandle, hb, hst, hj]
        | ok m => exact absurd (by simp [sendMessageHandle, hb, hst, hj]) h
      · simp [sendMessageHandle, hb, hst]

/-- Every outcome of `SendPDF`'s handler with a non-nil error carries the zero
response. -/
theorem sendPDFHandle_zero_on_error (r : Except GoError HttpResponse)
    (h : (sendPDFHandle r).2 ≠ none) :
    (sendPDFHandle r).1 = zeroMessageResponse := by
  cases r with
  | error e => rfl
  | ok resp =>
    cases hb : resp.body with
    | error e => simp [sendPDFHandle, hb]
    | ok respBody =>
      by_cases hst : resp.status = 200
      · cases hj : unmarshalMessageBody respBody with
        | error e => simp [sendPDFHandle, hb, hst, hj]
        | ok m => exact absurd (by simp [sendPDFHandle, hb, hst, hj]) h
      · simp [sendPDFHandle, hb, hst]

/-- Every outcome of `Check`'s handler with a non-nil error carries `false`. -/
theorem checkHandle_false_on_error (r : Except GoError HttpResponse)
    (h : (checkHandle r).2 ≠ none) :
    (checkHandle r).1 = false := by
  cases r with
  | error e => rfl
  | ok resp =>
    by_cases hst : resp.status = 200
    · cases hb : resp.body with
      | error e => simp [checkHandle, hb, hst]
      | ok respBody =>
        cases hj : unmarshalCheckBody respBody with
        | error e => simp [checkHandle, hb, hst, hj]
        | ok cr => exact absurd (by simp [checkHandle, hb, hst, hj]) h
    · simp [checkHandle, hst]

/-- C10: whenever an operation returns a non-nil error, the accompanying
result is the zero value of its type: the zero `MessageResponse` for the two
send operations, `false` for `Check`. -/
theorem C10_zero_value_on_error (c : Client) (p t fn phone : String)
    (pdf : Except GoError (List Nat)) :
    ((SendMessage c p t).2 ≠ none → (SendMessage c p t).1 = zeroMessageResponse) ∧
    ((SendPDF c p t fn pdf).2 ≠ none → (SendPDF c p t fn pdf).1 = zeroMessageResponse) ∧
    ((Check c phone).2 ≠ none → (Check c phone).1 = false) := by
  refine ⟨?_, ?_, ?_⟩
  · exact fun h => sendMessageHandle_zero_on_error _ h
  · cases pdf with
    | error e => intro _; rfl
    | ok b => exact fun h => sendPDFHandle_zero_on_error _ h
  · exact fun h => checkHandle_false_on_error _ h

/-- Stub network failing at the transport level, for the C10 witness. -/
def stubNetFail : Network := fun _ =>
  .error "dial tcp: connection refused"

/-- Client built against the failing network. -/
def clientFail : Client := NewClient "k1" "wa1" stubNetFail

/-- Witness for C10 on a concrete transport failure of all three operations. -/
theorem C10_zero_value_on_error_witness :
    (SendMessage clientFail "79990001122" "hi").1 = zeroMessageResponse ∧
    (SendPDF clientFail "79990001122" "hi" "a.pdf" (.ok [1, 2, 3])).1 = zeroMessageResponse ∧
    (Check clientFail "79990001122").1 = false :=
  ⟨(C10_zero_value_on_error clientFail "79990001122" "hi" "a.pdf" "79990001122"
      (.ok [1, 2, 3])).1 (by decide),
   (C10_zero_value_on_error clientFail "79990001122" "hi" "a.pdf" "79990001122"
      (.ok [1, 2, 3])).2.1 (by decide),
   (C10_zero_value_on_error clientFail "79990001122" "hi" "a.pdf" "79990001122"
      (.ok [1, 2, 3])).2.2 (by decide)⟩
